import Mathlib

/-!
Shallow embedding of `src/dcos/api/marathon.py` (the Marathon HTTP client of
makkes/dcos-cli) and proofs about the claims of its specification.

Python values are embedded as `PyVal`; JSON `null` decodes to the Python value
`None` (as `json.load` does), so both share the constructor `PyVal.none`.
Python exceptions raised by the client code paths are embedded as `PyExn` and
fallible code returns `Except PyExn _`.  The network is an oracle
`http : Request → Response`; each operation builds its request, applies the
oracle once and translates the response, mirroring the statement order of the
Python source.
-/

namespace Marathon

/-- Embedding of the Python/JSON values this client manipulates.  `PyVal.none`
is both Python `None` and decoded JSON `null` (Python identifies them). -/
inductive PyVal where
  | none
  | bool (b : Bool)
  | int (n : Int)
  | str (s : String)
  | list (xs : List PyVal)
  | dict (fields : List (String × PyVal))

/-- Python exceptions that the embedded code paths can raise. -/
inductive PyExn where
  | keyError (key : String)
  | typeError
  | attributeError
  | valueError

/-- `v is None` test used by the source (`if message is None`). -/
def PyVal.isNone : PyVal → Bool
  | .none => true
  | _ => false

/-- Python `d.get(k)`: on a dict returns the stored value or `None`; on any
other value raises `AttributeError` (no `get` attribute). -/
def PyVal.dictGet (v : PyVal) (k : String) : Except PyExn PyVal :=
  match v with
  | .dict fields => .ok ((fields.lookup k).getD PyVal.none)
  | _ => .error PyExn.attributeError

/-- Python `d[k]` with a string key: on a dict returns the value or raises
`KeyError`; on any other value raises `TypeError`. -/
def PyVal.getItem (v : PyVal) (k : String) : Except PyExn PyVal :=
  match v with
  | .dict fields =>
    match fields.lookup k with
    | some x => .ok x
    | Option.none => .error (PyExn.keyError k)
  | _ => .error PyExn.typeError

/-- Python list slice `xs[:n]` for an `int` bound `n`: a nonnegative bound
takes a front segment, a negative bound drops `-n` elements from the end. -/
def pySliceTo (xs : List PyVal) (n : Int) : List PyVal :=
  if 0 ≤ n then xs.take n.toNat
  else xs.take (xs.length - (-n).toNat)

/-- Python `v[:n]` as used at `versions[:max_count]`: slices a list, raises
`TypeError` on the non-sequence values (`dict`, `None`, numbers). -/
def PyVal.getSliceTo (v : PyVal) (n : Int) : Except PyExn PyVal :=
  match v with
  | .list xs => .ok (.list (pySliceTo xs n))
  | _ => .error PyExn.typeError

mutual

/-- Python `repr` of an embedded value (`str` falls back to this for
containers); string quotes are written with the escape `\x27`. -/
def pyRepr : PyVal → String
  | .none => "None"
  | .bool true => "True"
  | .bool false => "False"
  | .int n => toString n
  | .str s => "\x27" ++ s ++ "\x27"
  | .list xs => "[" ++ pyReprSeq xs ++ "]"
  | .dict fs => "\x7b" ++ pyReprFields fs ++ "\x7d"

def pyReprSeq : List PyVal → String
  | [] => ""
  | [x] => pyRepr x
  | x :: y :: xs => pyRepr x ++ ", " ++ pyReprSeq (y :: xs)

def pyReprFields : List (String × PyVal) → String
  | [] => ""
  | [(k, v)] => "\x27" ++ k ++ "\x27: " ++ pyRepr v
  | (k, v) :: f :: fs =>
    "\x27" ++ k ++ "\x27: " ++ pyRepr v ++ ", " ++ pyReprFields (f :: fs)

end

/-- Python `str(v)` (also `"...{}...".format(v)`): identity on strings,
`repr` otherwise.  In particular `str(True) = "True"`. -/
def pyStr : PyVal → String
  | .str s => s
  | v => pyRepr v

/-- Uppercase hexadecimal digits. -/
def hexDigits : List Char :=
  ['0', '1', '2', '3', '4', '5', '6', '7', '8', '9', 'A', 'B', 'C', 'D', 'E', 'F']

/-- The `n`-th uppercase hexadecimal digit (callers pass `n < 16`). -/
def hexDig (n : Nat) : Char :=
  hexDigits.getD n '0'

/-- UTF-8 bytes of a character, as `urllib.parse.quote` encodes its input. -/
def utf8Bytes (c : Char) : List Nat :=
  let n := c.toNat
  if n < 0x80 then [n]
  else if n < 0x800 then [0xC0 + n / 0x40, 0x80 + n % 0x40]
  else if n < 0x10000 then
    [0xE0 + n / 0x1000, 0x80 + (n / 0x40) % 0x40, 0x80 + n % 0x40]
  else
    [0xF0 + n / 0x40000, 0x80 + (n / 0x1000) % 0x40,
     0x80 + (n / 0x40) % 0x40, 0x80 + n % 0x40]

/-- `%XX` escape of one byte, uppercase hex as `urllib.parse.quote` emits. -/
def percentByte (b : Nat) : List Char :=
  ['%', hexDig (b / 16), hexDig (b % 16)]

/-- The characters `urllib.parse.quote` never escapes (`_ALWAYS_SAFE`):
ASCII letters, digits and `_.-~`. -/
def alwaysSafeChar (c : Char) : Bool :=
  ('A' ≤ c && c ≤ 'Z') || ('a' ≤ c && c ≤ 'z') || ('0' ≤ c && c ≤ '9') ||
    c == '_' || c == '.' || c == '-' || c == '~'

/-- Encoding of a single character under `urllib.parse.quote` with the given
extra `safe` characters: kept verbatim when safe, else every UTF-8 byte is
percent-escaped. -/
def quoteChar (safe : List Char) (c : Char) : List Char :=
  if alwaysSafeChar c || safe.contains c then [c]
  else ((utf8Bytes c).map percentByte).flatten

def quoteChars (safe : List Char) (l : List Char) : List Char :=
  (l.map (quoteChar safe)).flatten

/-- `urllib.parse.quote(s, safe)`.  The source calls it with the default
`safe='/'`. -/
def quote (safe : List Char) (s : String) : String :=
  String.mk (quoteChars safe s.data)

/-- `urllib.parse.quote_plus`: like `quote` with no extra safe characters,
but a space becomes `+` (when spaces occur, quote keeps them safe and the
single-character replace swaps each one for `+`). -/
def quote_plus (s : String) : String :=
  if s.data.contains ' ' then
    String.mk ((quoteChars [' '] s.data).map (fun c => if c == ' ' then '+' else c))
  else String.mk (quoteChars [] s.data)

/-- `urllib.parse.urlencode` on the query dicts this client builds:
`quote_plus(str(k)) + '=' + quote_plus(str(v))` joined with `&`. -/
def urlencode (query : List (String × PyVal)) : String :=
  String.intercalate "&" (query.map (fun kv => quote_plus kv.1 ++ "=" ++ quote_plus (pyStr kv.2)))

/-- Python `l.strip(c)` on the character list: drop every leading and every
trailing occurrence of `c`. -/
def stripChars (c : Char) (l : List Char) : List Char :=
  ((l.dropWhile (· == c)).reverse.dropWhile (· == c)).reverse

/-- Python `s.strip(c)` for a one-character strip set. -/
def pyStrip (s : String) (c : Char) : String :=
  String.mk (stripChars c s.data)

/-- The error value `marathon.Error`: holds the message string. -/
structure Error where
  message : String

/-- `Error.error()`: returns the stored message. -/
def Error.error (e : Error) : String :=
  e.message

/-- The single HTTP request an operation issues: method, full URL, and the
JSON body passed via `json=` when present. -/
structure Request where
  method : String
  url : String
  jsonBody : Option PyVal

/-- An HTTP response: status code and decoded JSON body; `body = none`
models a body that is not valid JSON, so `response.json()` raises. -/
structure Response where
  status_code : Nat
  body : Option PyVal

/-- `response.json()`: the decoded body, or a raised `ValueError`
(`json.JSONDecodeError`) when the body is not valid JSON. -/
def Response.json (r : Response) : Except PyExn PyVal :=
  match r.body with
  | some v => .ok v
  | Option.none => .error PyExn.valueError

/-- `marathon.Client`: immutable host and port. -/
structure Client where
  host : String
  port : Nat

/-- `Client._create_url`: formats `"http://{host}:{port}/{path}"` and, when
query parameters are given, appends `'?' + urlencode(query_params)`. -/
def Client.create_url (c : Client) (path : String) (query_params : Option (List (String × PyVal))) : String :=
  let url := "http://" ++ c.host ++ ":" ++ toString c.port ++ "/" ++ path
  match query_params with
  | Option.none => url
  | some qp => url ++ "?" ++ urlencode qp

/-- `Client._sanitize_app_id`: `quote('/' + app_id.strip('/'))` with quote's
default `safe='/'`. -/
def sanitize_app_id (app_id : String) : String :=
  quote ['/'] ("/" ++ pyStrip app_id '/')

/-- `Client._response_to_error`: reads `message` from the body JSON; absent
(or JSON `null`, which `.get` also returns as `None`) gives the generic
error, otherwise the message is wrapped as `Error: {message}`. -/
def response_to_error (response : Response) : Except PyExn Error :=
  match response.json with
  | .error e => .error e
  | .ok j =>
    match j.dictGet "message" with
    | .error e => .error e
    | .ok message =>
      match message with
      | .none => .ok (Error.mk "Unknown error from Marathon")
      | _ =>
        match response.json with
        | .error e => .error e
        | .ok j2 =>
          match j2.getItem "message" with
          | .error e => .error e
          | .ok m => .ok (Error.mk ("Error: " ++ pyStr m))

/-- Whether `_response_to_error` fires its `logger.error` call: exactly when
the body parses to a dict whose `message` lookup yields `None`. -/
def response_to_error_logs_anomaly (response : Response) : Bool :=
  match response.body with
  | some (.dict fs) =>
    match fs.lookup "message" with
    | Option.none => true
    | some .none => true
    | some _ => false
  | _ => false

/-- Request built by `Client.get_app` before issuing `requests.get`. -/
def Client.get_app_request (c : Client) (app_id : String) (version : Option String) : Request :=
  let app_id := sanitize_app_id app_id
  match version with
  | Option.none =>
    Request.mk "GET" (c.create_url ("v2/apps" ++ app_id) Option.none) Option.none
  | some v =>
    Request.mk "GET" (c.create_url ("v2/apps" ++ app_id ++ "/versions/" ++ v) Option.none) Option.none

/-- Response translation of `Client.get_app` (marathon.py lines 107-120).
The first `response.json` models the `logger.info('Got ...')` call at line
111, which evaluates `response.json()` and hence raises on a non-JSON
body. -/
def handle_get_app (version : Option String) (response : Response) : Except PyExn (PyVal × Option Error) :=
  match response.json with
  | .error e => .error e
  | .ok _ =>
    if response.status_code = 200 then
      match version with
      | Option.none =>
        match response.json with
        | .error e => .error e
        | .ok j =>
          match j.getItem "app" with
          | .error e => .error e
          | .ok app => .ok (app, Option.none)
      | some _ =>
        match response.json with
        | .error e => .error e
        | .ok j => .ok (j, Option.none)
    else
      match response_to_error response with
      | .error e => .error e
      | .ok err => .ok (PyVal.none, some err)

/-- `Client.get_app`. -/
def Client.get_app (c : Client) (app_id : String) (version : Option String) (http : Request → Response) : Except PyExn (PyVal × Option Error) :=
  handle_get_app version (http (c.get_app_request app_id version))

/-- Request built by `Client.get_app_versions`. -/
def Client.get_app_versions_request (c : Client) (app_id : String) : Request :=
  Request.mk "GET" (c.create_url ("v2/apps" ++ sanitize_app_id app_id ++ "/versions") Option.none) Option.none

/-- Response translation of `Client.get_app_versions` (lines 140-150); the
first `response.json` is the `logger.info('Got ...')` call at line 142. -/
def handle_get_app_versions (max_count : Option Int) (response : Response) : Except PyExn (PyVal × Option Error) :=
  match response.json with
  | .error e => .error e
  | .ok _ =>
    if response.status_code = 200 then
      match max_count with
      | Option.none =>
        match response.json with
        | .error e => .error e
        | .ok j =>
          match j.getItem "versions" with
          | .error e => .error e
          | .ok vs => .ok (vs, Option.none)
      | some n =>
        match response.json with
        | .error e => .error e
        | .ok j =>
          match j.getItem "versions" with
          | .error e => .error e
          | .ok vs =>
            match vs.getSliceTo n with
            | .error e => .error e
            | .ok sliced => .ok (sliced, Option.none)
    else
      match response_to_error response with
      | .error e => .error e
      | .ok err => .ok (PyVal.none, some err)

/-- `Client.get_app_versions`. -/
def Client.get_app_versions (c : Client) (app_id : String) (max_count : Option Int) (http : Request → Response) : Except PyExn (PyVal × Option Error) :=
  handle_get_app_versions max_count (http (c.get_app_versions_request app_id))

/-- Response translation of `Client.get_apps` (lines 160-166); this
operation has no logging call that touches the body. -/
def handle_get_apps (response : Response) : Except PyExn (PyVal × Option Error) :=
  if response.status_code = 200 then
    match response.json with
    | .error e => .error e
    | .ok j =>
      match j.getItem "apps" with
      | .error e => .error e
      | .ok apps => .ok (apps, Option.none)
  else
    match response_to_error response with
    | .error e => .error e
    | .ok err => .ok (PyVal.none, some err)

/-- `Client.get_apps`. -/
def Client.get_apps (c : Client) (http : Request → Response) : Except PyExn (PyVal × Option Error) :=
  handle_get_apps (http (Request.mk "GET" (c.create_url "v2/apps" Option.none) Option.none))

/-- The `app_resource` argument of `Client.add_app`: either an
already-parsed value, or a file-like source whose JSON parse result is
`some v` (invalid JSON text carries `Option.none` and makes `json.load`
raise `ValueError`). -/
inductive AppResource where
  | value (v : PyVal)
  | stream (parsed : Option PyVal)

/-- The pre-request stage of `Client.add_app` (lines 177-186): build the
URL, and parse the resource with `json.load` when it is file-like. -/
def Client.add_app_request (c : Client) (app_resource : AppResource) : Except PyExn Request :=
  let url := c.create_url "v2/apps" Option.none
  match app_resource with
  | .stream (some v) => .ok (Request.mk "POST" url (some v))
  | .stream Option.none => .error PyExn.valueError
  | .value v => .ok (Request.mk "POST" url (some v))

/-- Response translation of `Client.add_app` (lines 188-191). -/
def handle_add_app (response : Response) : Except PyExn (Option Error) :=
  if response.status_code = 201 then .ok Option.none
  else
    match response_to_error response with
    | .error e => .error e
    | .ok err => .ok (some err)

/-- `Client.add_app`. -/
def Client.add_app (c : Client) (app_resource : AppResource) (http : Request → Response) : Except PyExn (Option Error) :=
  match c.add_app_request app_resource with
  | .error e => .error e
  | .ok req => handle_add_app (http req)

/-- Request built by `Client.scale_app` (lines 206-216): `force` defaults to
`False` when `None`; a truthy `force` adds the query dict
`{'force': True}`. -/
def Client.scale_app_request (c : Client) (app_id : String) (instances : Int) (force : Option Bool) : Request :=
  let force := match force with
    | Option.none => false
    | some b => b
  let app_id := sanitize_app_id app_id
  let params : Option (List (String × PyVal)) :=
    if force then some [("force", PyVal.bool true)] else Option.none
  Request.mk "PUT" (c.create_url ("v2/apps" ++ app_id) params)
    (some (PyVal.dict [("instances", PyVal.int instances)]))

/-- Response translation of `Client.scale_app` (lines 218-222). -/
def handle_scale_app (response : Response) : Except PyExn (PyVal × Option Error) :=
  if response.status_code = 200 then
    match response.json with
    | .error e => .error e
    | .ok j =>
      match j.getItem "deploymentId" with
      | .error e => .error e
      | .ok deployment => .ok (deployment, Option.none)
  else
    match response_to_error response with
    | .error e => .error e
    | .ok err => .ok (PyVal.none, some err)

/-- `Client.scale_app`. -/
def Client.scale_app (c : Client) (app_id : String) (instances : Int) (force : Option Bool) (http : Request → Response) : Except PyExn (PyVal × Option Error) :=
  handle_scale_app (http (c.scale_app_request app_id instances force))

/-- `Client.suspend_app`: `return self.scale_app(app_id, 0, force)`. -/
def Client.suspend_app (c : Client) (app_id : String) (force : Option Bool) (http : Request → Response) : Except PyExn (PyVal × Option Error) :=
  c.scale_app app_id 0 force http

/-- Request built by `Client.remove_app` (lines 248-258): same `force`
handling as `scale_app`, method DELETE, no body. -/
def Client.remove_app_request (c : Client) (app_id : String) (force : Option Bool) : Request :=
  let force := match force with
    | Option.none => false
    | some b => b
  let app_id := sanitize_app_id app_id
  let params : Option (List (String × PyVal)) :=
    if force then some [("force", PyVal.bool true)] else Option.none
  Request.mk "DELETE" (c.create_url ("v2/apps" ++ app_id) params) Option.none

/-- Response translation of `Client.remove_app` (lines 260-263). -/
def handle_remove_app (response : Response) : Except PyExn (Option Error) :=
  if response.status_code = 200 then .ok Option.none
  else
    match response_to_error response with
    | .error e => .error e
    | .ok err => .ok (some err)

/-- `Client.remove_app`. -/
def Client.remove_app (c : Client) (app_id : String) (force : Option Bool) (http : Request → Response) : Except PyExn (Option Error) :=
  handle_remove_app (http (c.remove_app_request app_id force))

/-- The specification's strict either/or shape for the pair-valued
operations: exactly one of the success slot (absent when it is Python
`None`) and the error slot is present. -/
def strictEitherOr (r : PyVal × Option Error) : Bool :=
  (!r.1.isNone && r.2.isNone) || (r.1.isNone && r.2.isSome)

/-- Amended result shape of the pair-valued operations: never both present,
and both absent only on a success-coded (200) response. -/
def pairShapeOk (status : Nat) : Except PyExn (PyVal × Option Error) → Bool
  | .ok r => (r.1.isNone || r.2.isNone) && ((!(r.1.isNone && r.2.isNone)) || status == 200)
  | .error _ => true

/-- Result shape of the error-only operations (`add_app`, `remove_app`):
when they return, the error is absent exactly on the success status. -/
def optErrShapeOk (success_status status : Nat) : Except PyExn (Option Error) → Bool
  | .ok e => e.isNone == (status == success_status)
  | .error _ => true

/-- `optErrShapeOk` for `add_app`, evaluated at the status of the response
to whichever request `add_app` builds (vacuous when parsing the resource
already raised). -/
def add_app_shape (c : Client) (app_resource : AppResource) (http : Request → Response) : Bool :=
  match c.add_app_request app_resource with
  | .ok req => optErrShapeOk 201 (http req).status_code (c.add_app app_resource http)
  | .error _ => true

/-- An uppercase hexadecimal digit. -/
def isHexUpper (c : Char) : Bool :=
  ('0' ≤ c && c ≤ '9') || ('A' ≤ c && c ≤ 'F')

/-- Scanner for a percent-encoded path string; the first argument is the
number of hexadecimal digits still expected after a `%`. -/
def encodedOkFrom : Nat → List Char → Bool
  | 0, [] => true
  | 0, c :: rest =>
    if c == '%' then encodedOkFrom 2 rest
    else (alwaysSafeChar c || c == '/') && encodedOkFrom 0 rest
  | _ + 1, [] => false
  | k + 1, c :: rest => isHexUpper c && encodedOkFrom k rest

/-- Well-formedness of a percent-encoded path string: every character is an
always-safe character or a slash, or begins a `%XX` escape with two
uppercase hexadecimal digits. -/
def encodedOk (l : List Char) : Bool :=
  encodedOkFrom 0 l

theorem hexDig_beq_slash (n : Nat) : (hexDig n == '/') = false := by
  have hmem : ∀ c ∈ hexDigits, (c == '/') = false := by decide
  unfold hexDig List.getD
  cases hg : hexDigits.get? n with
  | none => decide
  | some ch =>
    rw [Option.getD_some]
    exact hmem _ (List.get?_mem hg)

theorem isHexUpper_hexDig (n : Nat) : isHexUpper (hexDig n) = true := by
  have hmem : ∀ c ∈ hexDigits, isHexUpper c = true := by decide
  unfold hexDig List.getD
  cases hg : hexDigits.get? n with
  | none => decide
  | some ch =>
    rw [Option.getD_some]
    exact hmem _ (List.get?_mem hg)

theorem dropWhile_head_false (p : Char → Bool) :
    ∀ {l as : List Char} {a : Char}, l.dropWhile p = a :: as → p a = false := by
  intro l
  induction l with
  | nil => intro as a h; simp at h
  | cons x xs ih =>
    intro as a h
    by_cases hx : p x = true
    · rw [List.dropWhile_cons_of_pos hx] at h
      exact ih h
    · rw [List.dropWhile_cons_of_neg hx] at h
      cases h
      simpa using hx

theorem stripChars_head_ne {c a : Char} {l as : List Char}
    (h : stripChars c l = a :: as) : (a == c) = false := by
  have h2 : stripChars c l ++
      ((l.dropWhile (· == c)).reverse.takeWhile (· == c)).reverse
      = l.dropWhile (· == c) := by
    unfold stripChars
    rw [← List.reverse_append, List.takeWhile_append_dropWhile, List.reverse_reverse]
  rw [h] at h2
  exact dropWhile_head_false (· == c) (by rw [← h2, List.cons_append])

theorem stripChars_last_ne {c a : Char} {l ts : List Char}
    (h : stripChars c l = ts ++ [a]) : (a == c) = false := by
  have h2 : (l.dropWhile (· == c)).reverse.dropWhile (· == c) = a :: ts.reverse := by
    have h3 := congrArg List.reverse h
    unfold stripChars at h3
    rw [List.reverse_reverse] at h3
    rw [h3, List.reverse_append]
    simp
  exact dropWhile_head_false (· == c) h2

theorem quoteChars_cons (safe : List Char) (ch : Char) (l : List Char) :
    quoteChars safe (ch :: l) = quoteChar safe ch ++ quoteChars safe l := by
  simp [quoteChars]

theorem quoteChars_append (safe : List Char) (l1 l2 : List Char) :
    quoteChars safe (l1 ++ l2) = quoteChars safe l1 ++ quoteChars safe l2 := by
  simp [quoteChars]

theorem utf8Bytes_ne_nil (ch : Char) : utf8Bytes ch ≠ [] := by
  intro hcontra
  simp only [utf8Bytes] at hcontra
  repeat' split at hcontra
  all_goals simp_all

theorem quoteChar_ne_nil (safe : List Char) (ch : Char) : quoteChar safe ch ≠ [] := by
  rw [quoteChar]
  split
  · simp
  · rcases hb : utf8Bytes ch with _ | ⟨b, bs⟩
    · exact absurd hb (utf8Bytes_ne_nil ch)
    · simp [hb, percentByte]

theorem contains_slash_iff (c : Char) : (List.contains ['/'] c) = (c == '/') := by
  by_cases h : c = '/' <;> simp [h, List.contains]

theorem count_slash_percentByte (b : Nat) : (percentByte b).count '/' = 0 := by
  simp [percentByte, List.count_cons, hexDig_beq_slash]

theorem count_slash_percent_flatten (bs : List Nat) :
    ((bs.map percentByte).flatten).count '/' = 0 := by
  induction bs with
  | nil => rfl
  | cons b bs ih => simp [List.count_append, count_slash_percentByte, ih]

theorem quoteChar_count_slash (ch : Char) :
    (quoteChar ['/'] ch).count '/' = [ch].count '/' := by
  rw [quoteChar]
  by_cases hs : (alwaysSafeChar ch || List.contains ['/'] ch) = true
  · rw [if_pos hs]
  · rw [if_neg hs]
    rw [count_slash_percent_flatten]
    have hch : (ch == '/') = false := by
      by_cases h : ch = '/'
      · subst h
        exact absurd (by decide) hs
      · simpa using h
    simp [List.count_singleton, hch]

theorem quoteChars_count_slash (l : List Char) :
    (quoteChars ['/'] l).count '/' = l.count '/' := by
  induction l with
  | nil => rfl
  | cons ch tl ih =>
    rw [quoteChars_cons, List.count_append, ih, quoteChar_count_slash]
    simp [List.count_cons, List.count_singleton]
    omega

theorem encodedOk_percent_flatten (bs : List Nat) (rest : List Char)
    (hr : encodedOk rest = true) :
    encodedOk ((bs.map percentByte).flatten ++ rest) = true := by
  induction bs with
  | nil => exact hr
  | cons b bs ih =>
    have hstep : ((b :: bs).map percentByte).flatten ++ rest
        = '%' :: hexDig (b / 16) :: hexDig (b % 16) :: ((bs.map percentByte).flatten ++ rest) := by
      simp [percentByte]
    rw [encodedOk, hstep]
    simp only [encodedOkFrom, isHexUpper_hexDig, Bool.true_and, if_pos]
    exact ih

theorem encodedOk_quoteChar_append (ch : Char) {rest : List Char}
    (hr : encodedOk rest = true) :
    encodedOk (quoteChar ['/'] ch ++ rest) = true := by
  rw [quoteChar]
  by_cases hs : (alwaysSafeChar ch || List.contains ['/'] ch) = true
  · rw [if_pos hs, List.singleton_append]
    have hch : (ch == '%') = false := by
      by_cases he : ch = '%'
      · subst he
        exact absurd hs (by decide)
      · simpa using he
    have hsafe : (alwaysSafeChar ch || ch == '/') = true := by
      rw [contains_slash_iff] at hs
      exact hs
    rw [encodedOk, encodedOkFrom, if_neg (by simp [hch]), hsafe]
    simp only [Bool.true_and]
    exact hr
  · rw [if_neg hs]
    exact encodedOk_percent_flatten _ _ hr

theorem encodedOk_quoteChars (l : List Char) : encodedOk (quoteChars ['/'] l) = true := by
  induction l with
  | nil => rfl
  | cons ch tl ih =>
    rw [quoteChars_cons]
    exact encodedOk_quoteChar_append ch ih

theorem quoteChars_head {d : Char} (hd : (d == '/') = false) (ds : List Char) :
    ∃ d2 ds2, quoteChars ['/'] (d :: ds) = d2 :: ds2 ∧ (d2 == '/') = false := by
  rw [quoteChars_cons, quoteChar]
  by_cases hs : (alwaysSafeChar d || List.contains ['/'] d) = true
  · rw [if_pos hs, List.singleton_append]
    exact ⟨d, quoteChars ['/'] ds, rfl, hd⟩
  · rw [if_neg hs]
    rcases hb : utf8Bytes d with _ | ⟨b, bs⟩
    · exact absurd hb (utf8Bytes_ne_nil d)
    · exact ⟨'%', hexDig (b / 16) :: hexDig (b % 16) ::
        ((bs.map percentByte).flatten ++ quoteChars ['/'] ds),
        by simp [percentByte], by decide⟩

theorem percent_flatten_getLast (b : Nat) (bs : List Nat) :
    ∃ n, (((b :: bs).map percentByte).flatten).getLast? = some (hexDig n) := by
  induction bs generalizing b with
  | nil =>
    exact ⟨b % 16, by simp [percentByte, List.getLast?]⟩
  | cons b2 bs ih =>
    obtain ⟨n, hn⟩ := ih b2
    refine ⟨n, ?_⟩
    have hne : ((b2 :: bs).map percentByte).flatten ≠ [] := by
      intro hcontra
      rw [hcontra] at hn
      simp at hn
    rw [List.map_cons, List.flatten_cons, List.getLast?_append_of_ne_nil _ hne]
    exact hn

theorem quoteChar_getLast_ne {t : Char} (ht : (t == '/') = false) :
    (quoteChar ['/'] t).getLast? ≠ some '/' := by
  rw [quoteChar]
  by_cases hs : (alwaysSafeChar t || List.contains ['/'] t) = true
  · rw [if_pos hs]
    intro hcontra
    have h2 : t = '/' := by simpa [List.getLast?] using hcontra
    rw [h2] at ht
    simp at ht
  · rw [if_neg hs]
    rcases hb : utf8Bytes t with _ | ⟨b, bs⟩
    · exact absurd hb (utf8Bytes_ne_nil t)
    · obtain ⟨n, hn⟩ := percent_flatten_getLast b bs
      rw [hn]
      intro hcontra
      have h2 : hexDig n = '/' := by simpa using hcontra
      have h3 := hexDig_beq_slash n
      rw [h2] at h3
      simp at h3

theorem sanitize_data (s : String) :
    (sanitize_app_id s).data = '/' :: quoteChars ['/'] (stripChars '/' s.data) := by
  show (quote ['/'] ("/" ++ pyStrip s '/')).data = _
  have h1 : ("/" ++ pyStrip s '/').data = '/' :: stripChars '/' s.data := by
    simp [pyStrip, String.data_append]
  simp only [quote, h1, quoteChars_cons]
  rfl

theorem handle_get_app_shape (version : Option String) (response : Response) :
    pairShapeOk response.status_code (handle_get_app version response) = true := by
  unfold handle_get_app
  repeat' split
  all_goals simp_all [pairShapeOk, PyVal.isNone]

theorem handle_get_app_versions_shape (max_count : Option Int) (response : Response) :
    pairShapeOk response.status_code (handle_get_app_versions max_count response) = true := by
  unfold handle_get_app_versions
  repeat' split
  all_goals simp_all [pairShapeOk, PyVal.isNone]

theorem handle_get_apps_shape (response : Response) :
    pairShapeOk response.status_code (handle_get_apps response) = true := by
  unfold handle_get_apps
  repeat' split
  all_goals simp_all [pairShapeOk, PyVal.isNone]

theorem handle_scale_app_shape (response : Response) :
    pairShapeOk response.status_code (handle_scale_app response) = true := by
  unfold handle_scale_app
  repeat' split
  all_goals simp_all [pairShapeOk, PyVal.isNone]

theorem handle_add_app_shape (response : Response) :
    optErrShapeOk 201 response.status_code (handle_add_app response) = true := by
  unfold handle_add_app
  repeat' split
  all_goals simp_all [optErrShapeOk]

theorem handle_remove_app_shape (response : Response) :
    optErrShapeOk 200 response.status_code (handle_remove_app response) = true := by
  unfold handle_remove_app
  repeat' split
  all_goals simp_all [optErrShapeOk]

/-- C1 (amended): for every operation of the client surface and every
response on which the operation returns at all, the success and error slots
are never both present, and both are absent only on a success-coded
response (whose unwrapped payload was JSON `null`); the error-only
operations `add_app` and `remove_app` return no error exactly on their
success status. -/
theorem C1_amended (c : Client) (app_id : String) (version : Option String)
    (max_count : Option Int) (instances : Int) (force : Option Bool)
    (app_resource : AppResource) (http : Request → Response) :
    pairShapeOk (http (c.get_app_request app_id version)).status_code
      (c.get_app app_id version http) = true ∧
    pairShapeOk (http (c.get_app_versions_request app_id)).status_code
      (c.get_app_versions app_id max_count http) = true ∧
    pairShapeOk (http (Request.mk "GET" (c.create_url "v2/apps" Option.none) Option.none)).status_code
      (c.get_apps http) = true ∧
    pairShapeOk (http (c.scale_app_request app_id instances force)).status_code
      (c.scale_app app_id instances force http) = true ∧
    pairShapeOk (http (c.scale_app_request app_id 0 force)).status_code
      (c.suspend_app app_id force http) = true ∧
    add_app_shape c app_resource http = true ∧
    optErrShapeOk 200 (http (c.remove_app_request app_id force)).status_code
      (c.remove_app app_id force http) = true := by
  refine ⟨handle_get_app_shape _ _, handle_get_app_versions_shape _ _,
    handle_get_apps_shape _, handle_scale_app_shape _, handle_scale_app_shape _,
    ?_, handle_remove_app_shape _⟩
  unfold add_app_shape Client.add_app
  cases hr : c.add_app_request app_resource with
  | error e => rfl
  | ok req => exact handle_add_app_shape _

/-- C1 (counterexample to the claim as stated): a 200 response with body
`{"app": null}` makes `get_app` return the Python tuple `(None, None)` —
success and error value both absent, refuting the strict either/or. -/
theorem C1_counterexample :
    Client.get_app (Client.mk "localhost" 8080) "foo" Option.none
      (fun _ => Response.mk 200 (some (PyVal.dict [("app", PyVal.none)]))) =
      .ok (PyVal.none, Option.none) ∧
    strictEitherOr (PyVal.none, Option.none) = false :=
  ⟨rfl, rfl⟩

/-- C2: the code does NOT degrade gracefully — a success-coded response
whose body lacks the expected field raises an uncontrolled `KeyError`, and
a non-JSON body on an error-status response raises an uncontrolled
`ValueError`, both propagating to the caller. -/
theorem C2_uncontrolled_fault_eval :
    Client.get_app (Client.mk "localhost" 8080) "foo" Option.none
      (fun _ => Response.mk 200 (some (PyVal.dict []))) =
      .error (PyExn.keyError "app") ∧
    Client.get_apps (Client.mk "localhost" 8080)
      (fun _ => Response.mk 500 Option.none) = .error PyExn.valueError :=
  ⟨rfl, rfl⟩

/-- C3: on a body carrying a string `message` field the translated error is
`Error: ` followed by the message (and no anomaly is logged); on a body
lacking the field the error is the generic `Unknown error from Marathon`
and the anomaly is logged; and a read operation on a non-success status
returns exactly that translated error. -/
theorem C3_error_translation (status : Nat) (fields : List (String × PyVal))
    (m : String) (c : Client) (app_id : String) :
    (fields.lookup "message" = some (PyVal.str m) →
      response_to_error (Response.mk status (some (PyVal.dict fields))) =
        .ok (Error.mk ("Error: " ++ m)) ∧
      response_to_error_logs_anomaly (Response.mk status (some (PyVal.dict fields))) = false) ∧
    (fields.lookup "message" = Option.none →
      response_to_error (Response.mk status (some (PyVal.dict fields))) =
        .ok (Error.mk "Unknown error from Marathon") ∧
      response_to_error_logs_anomaly (Response.mk status (some (PyVal.dict fields))) = true) ∧
    (status ≠ 200 → fields.lookup "message" = some (PyVal.str m) →
      c.get_app app_id Option.none (fun _ => Response.mk status (some (PyVal.dict fields))) =
        .ok (PyVal.none, some (Error.mk ("Error: " ++ m)))) := by
  have hmain : fields.lookup "message" = some (PyVal.str m) →
      response_to_error (Response.mk status (some (PyVal.dict fields))) =
        .ok (Error.mk ("Error: " ++ m)) := by
    intro h
    simp [response_to_error, Response.json, PyVal.dictGet, PyVal.getItem, h, pyStr]
  refine ⟨fun h => ⟨hmain h, ?_⟩, fun h => ⟨?_, ?_⟩, fun hs h => ?_⟩
  · simp [response_to_error_logs_anomaly, h]
  · simp [response_to_error, Response.json, PyVal.dictGet, h]
  · simp [response_to_error_logs_anomaly, h]
  · simp [Client.get_app, handle_get_app, Response.json, hs, hmain h]

/-- Witness for C3: the 404 body `{"message": "App not found"}` yields the
error message `Error: App not found` from `get_app`, and a 500 body without
a `message` field logs the anomaly. -/
theorem C3_witness :
    Client.get_app (Client.mk "h" 1) "foo" Option.none
      (fun _ => Response.mk 404 (some (PyVal.dict [("message", PyVal.str "App not found")]))) =
      .ok (PyVal.none, some (Error.mk "Error: App not found")) ∧
    response_to_error_logs_anomaly
      (Response.mk 500 (some (PyVal.dict [("code", PyVal.int 42)]))) = true :=
  ⟨(C3_error_translation 404 [("message", PyVal.str "App not found")] "App not found"
      (Client.mk "h" 1) "foo").2.2 (by decide) rfl,
   ((C3_error_translation 500 [("code", PyVal.int 42)] "" (Client.mk "h" 1) "x").2.1 rfl).2⟩

/-- C5: on a 200 response, `get_app` with `version = None` returns the
body's `app` field, and with any given version returns the whole body
unchanged. -/
theorem C5_get_app_branches (c : Client) (app_id : String) (v : String)
    (fields : List (String × PyVal)) (a j : PyVal) :
    (fields.lookup "app" = some a →
      c.get_app app_id Option.none (fun _ => Response.mk 200 (some (PyVal.dict fields))) =
        .ok (a, Option.none)) ∧
    c.get_app app_id (some v) (fun _ => Response.mk 200 (some j)) = .ok (j, Option.none) := by
  constructor
  · intro h
    simp [Client.get_app, handle_get_app, Response.json, PyVal.getItem, h]
  · simp [Client.get_app, handle_get_app, Response.json]

/-- Witness for C5: a concrete 200 response with body `{"app": 7}`. -/
theorem C5_witness :
    Client.get_app (Client.mk "h" 1) "foo" Option.none
      (fun _ => Response.mk 200 (some (PyVal.dict [("app", PyVal.int 7)]))) =
      .ok (PyVal.int 7, Option.none) :=
  (C5_get_app_branches (Client.mk "h" 1) "foo" "x" [("app", PyVal.int 7)]
    (PyVal.int 7) PyVal.none).1 rfl

/-- C6 (amended): for nonnegative `max_count` the result is the front
segment of the versions list of length `min max_count length`; a `None`
`max_count` returns the full list.  (A negative `max_count` follows Python
slicing and drops elements from the end instead.) -/
theorem C6_amended (c : Client) (app_id : String) (vs : List PyVal) (n : Int)
    (h : 0 ≤ n) :
    c.get_app_versions app_id (some n)
        (fun _ => Response.mk 200 (some (PyVal.dict [("versions", PyVal.list vs)]))) =
      .ok (PyVal.list (vs.take n.toNat), Option.none) ∧
    (vs.take n.toNat).length = min n.toNat vs.length ∧
    c.get_app_versions app_id Option.none
        (fun _ => Response.mk 200 (some (PyVal.dict [("versions", PyVal.list vs)]))) =
      .ok (PyVal.list vs, Option.none) := by
  refine ⟨?_, List.length_take _ _, ?_⟩
  · simp [Client.get_app_versions, handle_get_app_versions, Response.json,
      PyVal.getItem, PyVal.getSliceTo, pySliceTo, h]
  · simp [Client.get_app_versions, handle_get_app_versions, Response.json, PyVal.getItem]

/-- Witness for C6: `max_count = 2` on the versions list
`["v3","v2","v1"]` returns `["v3","v2"]`. -/
theorem C6_witness :
    Client.get_app_versions (Client.mk "h" 1) "foo" (some 2)
        (fun _ => Response.mk 200 (some (PyVal.dict [("versions",
          PyVal.list [PyVal.str "v3", PyVal.str "v2", PyVal.str "v1"])]))) =
      .ok (PyVal.list [PyVal.str "v3", PyVal.str "v2"], Option.none) :=
  (C6_amended (Client.mk "h" 1) "foo"
    [PyVal.str "v3", PyVal.str "v2", PyVal.str "v1"] 2 (by decide)).1

/-- C6 (counterexample to the claim as stated): for `max_count = -1` on a
three-element list the code returns a two-element front segment, but the
claim promises a slice of length `min max_count length = -1`, which no list
has. -/
theorem C6_counterexample :
    Client.get_app_versions (Client.mk "h" 1) "foo" (some (-1))
        (fun _ => Response.mk 200 (some (PyVal.dict [("versions",
          PyVal.list [PyVal.str "v3", PyVal.str "v2", PyVal.str "v1"])]))) =
      .ok (PyVal.list [PyVal.str "v3", PyVal.str "v2"], Option.none) ∧
    ((([PyVal.str "v3", PyVal.str "v2"].length : Int)) == min (-1 : Int) 3) = false :=
  ⟨rfl, by decide⟩

/-- C7 (amended): a `None` `force` behaves as `False` and adds no query
parameter to the URL; a true `force` appends the query string `force=True`
(Python renders `str(True)` with a capital T); `scale_app` sends a PUT with
body `{"instances": n}` and unwraps `deploymentId` from a 200 response;
`remove_app` sends a DELETE with the same `force` handling. -/
theorem C7_amended (c : Client) (app_id : String) (instances : Int) (d : String) :
    c.scale_app_request app_id instances Option.none =
      c.scale_app_request app_id instances (some false) ∧
    c.scale_app_request app_id instances (some false) =
      Request.mk "PUT" (c.create_url ("v2/apps" ++ sanitize_app_id app_id) Option.none)
        (some (PyVal.dict [("instances", PyVal.int instances)])) ∧
    c.scale_app_request app_id instances (some true) =
      Request.mk "PUT"
        (c.create_url ("v2/apps" ++ sanitize_app_id app_id) Option.none ++ "?" ++ "force=True")
        (some (PyVal.dict [("instances", PyVal.int instances)])) ∧
    c.remove_app_request app_id Option.none = c.remove_app_request app_id (some false) ∧
    c.remove_app_request app_id (some false) =
      Request.mk "DELETE" (c.create_url ("v2/apps" ++ sanitize_app_id app_id) Option.none)
        Option.none ∧
    c.remove_app_request app_id (some true) =
      Request.mk "DELETE"
        (c.create_url ("v2/apps" ++ sanitize_app_id app_id) Option.none ++ "?" ++ "force=True")
        Option.none ∧
    c.scale_app app_id instances (some true)
        (fun _ => Response.mk 200 (some (PyVal.dict [("deploymentId", PyVal.str d)]))) =
      .ok (PyVal.str d, Option.none) :=
  ⟨rfl, rfl, rfl, rfl, rfl, rfl, rfl⟩

/-- C7 (counterexample to the claim as stated): the query parameter the
code appends is `force=True`, not the claimed `force=true`. -/
theorem C7_counterexample :
    Client.scale_app_request (Client.mk "h" 1) "foo" 3 (some true) =
      Request.mk "PUT" "http://h:1/v2/apps/foo?force=True"
        (some (PyVal.dict [("instances", PyVal.int 3)])) ∧
    (("http://h:1/v2/apps/foo?force=True" : String) ==
      "http://h:1/v2/apps/foo?force=true") = false :=
  ⟨rfl, by decide⟩

/-- C8: `suspend_app` delegates exactly to `scale_app` with zero instances:
same request issued to the oracle, same result returned. -/
theorem C8_suspend_eq_scale (c : Client) (app_id : String) (force : Option Bool)
    (http : Request → Response) :
    c.suspend_app app_id force http = c.scale_app app_id 0 force http :=
  rfl

/-- C9: `add_app` on a parsed stream behaves exactly as on the already
parsed value — the JSON is parsed before transmission and the same request
is posted — and whenever it returns, the error is absent exactly on a 201
response. -/
theorem C9_add_app (c : Client) (v : PyVal) (http : Request → Response) :
    c.add_app (AppResource.stream (some v)) http = c.add_app (AppResource.value v) http ∧
    c.add_app_request (AppResource.stream (some v)) =
      .ok (Request.mk "POST" (c.create_url "v2/apps" Option.none) (some v)) ∧
    (∀ e, c.add_app (AppResource.value v) http = .ok e →
      (e = Option.none ↔
        (http (Request.mk "POST" (c.create_url "v2/apps" Option.none) (some v))).status_code = 201)) := by
  refine ⟨rfl, rfl, fun e he => ?_⟩
  have he2 : (if (http (Request.mk "POST" (c.create_url "v2/apps" Option.none) (some v))).status_code = 201
      then (Except.ok Option.none : Except PyExn (Option Error))
      else
        match response_to_error
            (http (Request.mk "POST" (c.create_url "v2/apps" Option.none) (some v))) with
        | Except.error e2 => Except.error e2
        | Except.ok err => Except.ok (some err)) = Except.ok e := he
  by_cases hs : (http (Request.mk "POST" (c.create_url "v2/apps" Option.none) (some v))).status_code = 201
  · rw [if_pos hs] at he2
    cases he2
    simp [hs]
  · rw [if_neg hs] at he2
    revert he2
    cases h2 : response_to_error
        (http (Request.mk "POST" (c.create_url "v2/apps" Option.none) (some v))) with
    | error e2 => intro he2; cases he2
    | ok err =>
      intro he2
      cases he2
      simp [hs]

/-- Witness for C9: a pre-parsed descriptor and a stream with the same JSON
behave identically, and a 201 response yields no error. -/
theorem C9_witness :
    Client.add_app (Client.mk "h" 1) (AppResource.stream (some (PyVal.dict [])))
        (fun _ => Response.mk 201 (some (PyVal.dict []))) =
      Client.add_app (Client.mk "h" 1) (AppResource.value (PyVal.dict []))
        (fun _ => Response.mk 201 (some (PyVal.dict []))) ∧
    ((Option.none : Option Error) = Option.none ↔ (201 : Nat) = 201) :=
  ⟨(C9_add_app (Client.mk "h" 1) (PyVal.dict [])
      (fun _ => Response.mk 201 (some (PyVal.dict [])))).1,
   (C9_add_app (Client.mk "h" 1) (PyVal.dict [])
      (fun _ => Response.mk 201 (some (PyVal.dict [])))).2.2 Option.none rfl⟩

/-- C4 (amended): for every identifier whose core after stripping the
surrounding slashes is nonempty, the sanitized identifier starts with
exactly one leading slash (the second character is never a slash), does not
end with a slash, and is well-formed percent-encoded text; an identifier
consisting only of slashes (or empty) sanitizes to exactly `/`, a single
character that is both its leading and its trailing slash. -/
theorem C4_sanitize_amended (s : String) :
    (stripChars '/' s.data = [] → sanitize_app_id s = "/") ∧
    (stripChars '/' s.data ≠ [] →
      (∃ d2 ds2, (sanitize_app_id s).data = '/' :: d2 :: ds2 ∧ (d2 == '/') = false) ∧
      (sanitize_app_id s).data.getLast? ≠ some '/' ∧
      encodedOk (sanitize_app_id s).data = true) := by
  constructor
  · intro h
    show quote ['/'] ("/" ++ pyStrip s '/') = "/"
    have h1 : pyStrip s '/' = String.mk [] := by
      unfold pyStrip
      rw [h]
    rw [h1]
    rfl
  · intro h
    refine ⟨?_, ?_, ?_⟩
    · rcases hc : stripChars '/' s.data with _ | ⟨d, ds⟩
      · exact absurd hc h
      · have hd := stripChars_head_ne hc
        obtain ⟨d2, ds2, h2, h3⟩ := quoteChars_head hd ds
        refine ⟨d2, ds2, ?_, h3⟩
        rw [sanitize_data, hc, h2]
    · rcases List.eq_nil_or_concat (stripChars '/' s.data) with hnil | ⟨ts, t, hts⟩
      · exact absurd hnil h
      · rw [List.concat_eq_append] at hts
        have ht := stripChars_last_ne hts
        rw [sanitize_data, hts, quoteChars_append]
        have hq : quoteChars ['/'] [t] = quoteChar ['/'] t := by
          rw [quoteChars_cons]
          simp [quoteChars]
        rw [hq]
        have hne := quoteChar_ne_nil ['/'] t
        rw [show ('/' :: (quoteChars ['/'] ts ++ quoteChar ['/'] t))
            = ('/' :: quoteChars ['/'] ts) ++ quoteChar ['/'] t from by simp]
        rw [List.getLast?_append_of_ne_nil _ hne]
        exact quoteChar_getLast_ne ht
    · rw [sanitize_data]
      have hfold : '/' :: quoteChars ['/'] (stripChars '/' s.data)
          = quoteChars ['/'] ('/' :: stripChars '/' s.data) := by
        rw [quoteChars_cons]
        rfl
      rw [hfold]
      exact encodedOk_quoteChars _

/-- C4 (counterexample to the claim as stated): an identifier made only of
slashes sanitizes to the single-character string `/`, which ends with a
slash, contradicting the promised absence of a trailing slash. -/
theorem C4_counterexample :
    sanitize_app_id "///" = "/" ∧ ("/" : String).data.getLast? = some '/' :=
  ⟨rfl, rfl⟩

/-- Witness for C4: the identifier `a b/` has a nonempty core and sanitizes
to `/a%20b` — one leading slash, no trailing slash, well-encoded. -/
theorem C4_witness :
    (stripChars '/' ("a b/").data).isEmpty = false ∧
    ((sanitize_app_id "a b/").data.getLast? == some '/') = false ∧
    encodedOk (sanitize_app_id "a b/").data = true ∧
    sanitize_app_id "a b/" = "/a%20b" :=
  ⟨by decide,
   beq_eq_false_iff_ne.mpr (((C4_sanitize_amended "a b/").2 (by decide)).2.1),
   ((C4_sanitize_amended "a b/").2 (by decide)).2.2, rfl⟩

/-- C10: the sanitizer keeps every interior slash of the identifier as a
literal `/` (quote treats `/` as safe), so slash-separated identifiers keep
their internal path separators; e.g. `a/b` sanitizes to `/a/b`. -/
theorem C10_interior_slashes :
    (∀ s : String, ((sanitize_app_id s).data.count '/') =
      1 + ((pyStrip s '/').data.count '/')) ∧
    sanitize_app_id "a/b" = "/a/b" := by
  constructor
  · intro s
    rw [sanitize_data]
    rw [List.count_cons]
    rw [quoteChars_count_slash]
    simp [pyStrip]
    omega
  · rfl

end Marathon
